import Mathlib

/-!
Verification of the configuration-validation core of Veraticus/vuls
(src/config/config.go) against its natural-language specification.

The Go structs are embedded as Lean structures, the validators as pure
functions returning ordered lists of violations.  Each `fmt.Errorf` site in
the source becomes one constructor of the `VErr` inductive (the constructor
payload carries the value interpolated into the message; `VErr.message`
reproduces the exact text).  The leaf format checks performed by the
third-party govalidator library (IsFilePath, IsEmail, IsURL, IsPort) are not
part of this repository; they are abstracted as the fields of a
`GoValidator` record, and every theorem quantifies over them.  The
tag-driven `valid.ValidateStruct` passes are likewise library code; they are
modelled from the spec (see `validateConfigStruct`, `validateSmtpStruct`,
`validateSlackStruct`).
-/

namespace Vuls

/-- Dynamic Go value, standing in for the `interface` element type of the
`Optional` field of `ServerInfo`.  The validators never inspect it. -/
inductive GoValue where
  | vnull : GoValue
  | vbool : Bool → GoValue
  | vint : Int → GoValue
  | vstr : String → GoValue
deriving DecidableEq

/-- Go struct `Container`: container runtime target information.  The Go
field `Type` is rendered `Type'` (`Type` is a Lean keyword). -/
structure Container where
  ContainerID : String
  Name : String
  Type' : String
deriving DecidableEq

/-- Go struct `ServerInfo`: SSH info and additional CPE packages to scan. -/
structure ServerInfo where
  ServerName : String
  User : String
  Host : String
  Port : String
  KeyPath : String
  KeyPassword : String
  CpeNames : List String
  Containers : List String
  Optional : List (List GoValue)
  LogMsgAnsiColor : String
  Container : Container
  Family : String
deriving DecidableEq

/-- Go struct `smtpConf`: smtp config. -/
structure smtpConf where
  SMTPAddr : String
  SMTPPort : String
  User : String
  Password : String
  From : String
  To : List String
  Cc : List String
  SubjectPrefix : String
  UseThisTime : Bool
deriving DecidableEq

/-- Go struct `SlackConf`: slack config. -/
structure SlackConf where
  HookURL : String
  Channel : String
  IconEmoji : String
  AuthUser : String
  NotifyUsers : List String
  Text : String
  UseThisTime : Bool
deriving DecidableEq

/-- Go struct `Config` of Configuration.  Go's `map[string]ServerInfo` is
embedded as an association list; `float64` as `Float`. -/
structure Config where
  Debug : Bool
  DebugSQL : Bool
  Lang : String
  Mail : smtpConf
  Slack : SlackConf
  Default : ServerInfo
  Servers : List (String × ServerInfo)
  CveDictionaryURL : String
  CvssScoreOver : Float
  IgnoreUnscoredCves : Bool
  SSHExternal : Bool
  HTTPProxy : String
  JSONBaseDir : String
  CveDBPath : String
  AwsProfile : String
  AwsRegion : String
  S3Bucket : String
  AzureAccount : String
  AzureKey : String
  AzureContainer : String

/-- One violation.  Each constructor corresponds to one `fmt.Errorf` call
site of config.go (payload = the interpolated value), except the three
`structErr` constructors, which stand for the single aggregated error a
`valid.ValidateStruct` pass can return (payload = the offending values). -/
inductive VErr where
  | jsonBaseDir : String → VErr
  | cveDBPath : String → VErr
  | configStructErr : List String → VErr
  | invalidEmail : String → VErr
  | smtpAddrEmpty : VErr
  | smtpPortEmpty : VErr
  | toRequired : VErr
  | fromRequired : VErr
  | smtpStructErr : List String → VErr
  | hookURLEmpty : VErr
  | channelEmpty : VErr
  | channelNoHash : String → VErr
  | authUserEmpty : VErr
  | slackStructErr : List String → VErr
deriving DecidableEq

/-- The exact message text of each violation, as produced by the
`fmt.Errorf` format strings of config.go (the `ValidateStruct` aggregate
messages come from the library and are summarised). -/
def VErr.message : VErr → String
  | .jsonBaseDir s =>
      "JSON base directory must be a *Absolute* file path. jsonBaseDir: " ++ s
  | .cveDBPath s =>
      "SQLite3 DB(Cve Dictionary) path must be a *Absolute* file path. dbpath: " ++ s
  | .configStructErr l => "struct validation failed: " ++ String.intercalate ", " l
  | .invalidEmail s => "Invalid email address. email: " ++ s
  | .smtpAddrEmpty => "smtpAddr must not be empty"
  | .smtpPortEmpty => "smtpPort must not be empty"
  | .toRequired => "To required at least one address"
  | .fromRequired => "From required at least one address"
  | .smtpStructErr l => "struct validation failed: " ++ String.intercalate ", " l
  | .hookURLEmpty => "hookURL must not be empty"
  | .channelEmpty => "channel must not be empty"
  | .channelNoHash s => "channel\x27s prefix must be \x27#\x27, channel: " ++ s
  | .authUserEmpty => "authUser must not be empty"
  | .slackStructErr l => "struct validation failed: " ++ String.intercalate ", " l

/-- The leaf format predicates supplied by the third-party govalidator
library (not code of this repository): `isFilePath` is the first result of
`valid.IsFilePath`, `isEmail` is `valid.IsEmail`, `isURL` and `isPort` are
the checkers behind the `url` and `port` struct tags. -/
structure GoValidator where
  isFilePath : String → Bool
  isEmail : String → Bool
  isURL : String → Bool
  isPort : String → Bool

/-- Function `strings.HasPrefix s p` of the Go standard library: whether `s` begins
with `p`, rendered at the character level. -/
def stringHasPrefix (s p : String) : Bool :=
  p.data.isPrefixOf s.data

/-- Function `checkEmails` of config.go: walks the address list; an empty address
makes the function return the errors accumulated so far; a non-empty
address failing `valid.IsEmail` contributes its own error. -/
def checkEmails (isEmail : String → Bool) : List String → List VErr
  | [] => []
  | addr :: rest =>
      if addr.length = 0 then []
      else if isEmail addr then checkEmails isEmail rest
      else VErr.invalidEmail addr :: checkEmails isEmail rest

/-- Modelled from the spec: the `valid.ValidateStruct` pass over `smtpConf`
(library code, outside this repository).  The only tagged field is
`SMTPPort` (tag `port`); the spec says the port must "additionally satisfy
valid network port format via the general structural check" and that empty
tagged values pass, and that any failure is a single aggregated error. -/
def validateSmtpStruct (v : GoValidator) (c : smtpConf) : Option VErr :=
  if c.SMTPPort.length ≠ 0 ∧ v.isPort c.SMTPPort = false then
    some (VErr.smtpStructErr [c.SMTPPort])
  else none

/-- Method `smtpConf.Validate` of config.go: returns immediately when
`UseThisTime` is false; otherwise checks the combined `[From] ++ To ++ Cc`
email list, then the four required fields, then the structural pass. -/
def smtpConf.Validate (v : GoValidator) (c : smtpConf) : List VErr :=
  if !c.UseThisTime then []
  else
    let emails := [c.From] ++ c.To ++ c.Cc
    let emailErrs := checkEmails v.isEmail emails
    let errs : List VErr := if 0 < emailErrs.length then [] ++ emailErrs else []
    let errs := if c.SMTPAddr.length = 0 then errs ++ [VErr.smtpAddrEmpty] else errs
    let errs := if c.SMTPPort.length = 0 then errs ++ [VErr.smtpPortEmpty] else errs
    let errs := if c.To.length = 0 then errs ++ [VErr.toRequired] else errs
    let errs := if c.From.length = 0 then errs ++ [VErr.fromRequired] else errs
    match validateSmtpStruct v c with
    | some e => errs ++ [e]
    | none => errs

/-- Modelled from the spec: the `valid.ValidateStruct` pass over
`SlackConf` (library code, outside this repository).  The only tagged field
is `HookURL` (tag `url`); empty tagged values pass; any failure is a single
aggregated error. -/
def validateSlackStruct (v : GoValidator) (c : SlackConf) : Option VErr :=
  if c.HookURL.length ≠ 0 ∧ v.isURL c.HookURL = false then
    some (VErr.slackStructErr [c.HookURL])
  else none

/-- Method `SlackConf.Validate` of config.go: returns immediately when
`UseThisTime` is false; otherwise checks HookURL, Channel (non-empty, and
then `#`-prefixed or the literal placeholder), AuthUser, then the
structural pass. -/
def SlackConf.Validate (v : GoValidator) (c : SlackConf) : List VErr :=
  if !c.UseThisTime then []
  else
    let errs : List VErr :=
      if c.HookURL.length = 0 then [] ++ [VErr.hookURLEmpty] else []
    let errs :=
      if c.Channel.length = 0 then errs ++ [VErr.channelEmpty]
      else
        if !(stringHasPrefix c.Channel "#" || c.Channel == "${servername}") then
          errs ++ [VErr.channelNoHash c.Channel]
        else errs
    let errs := if c.AuthUser.length = 0 then errs ++ [VErr.authUserEmpty] else errs
    match validateSlackStruct v c with
    | some e => errs ++ [e]
    | none => errs

/-- Modelled from the spec: the `valid.ValidateStruct` pass over `Config`
(library code, outside this repository).  The tagged fields are
`CveDictionaryURL` and `HTTPProxy` (tag `url`); they must be well-formed
URLs when non-empty; any failure here is appended as a single aggregated
error. -/
def validateConfigStruct (v : GoValidator) (c : Config) : Option VErr :=
  let bad : List String :=
    (if c.CveDictionaryURL.length ≠ 0 ∧ v.isURL c.CveDictionaryURL = false then
      [c.CveDictionaryURL] else [])
    ++ (if c.HTTPProxy.length ≠ 0 ∧ v.isURL c.HTTPProxy = false then
      [c.HTTPProxy] else [])
  if bad.length = 0 then none else some (VErr.configStructErr bad)

/-- The ordered error list collected by `Config.Validate` of config.go
(the `errs` slice at the point of the final `return`; the Go function logs
each entry and returns only the boolean). -/
def Config.ValidateErrs (v : GoValidator) (c : Config) : List VErr :=
  let errs : List VErr := []
  let errs :=
    if c.JSONBaseDir.length ≠ 0 then
      if v.isFilePath c.JSONBaseDir then errs
      else errs ++ [VErr.jsonBaseDir c.JSONBaseDir]
    else errs
  let errs :=
    if c.CveDBPath.length ≠ 0 then
      if v.isFilePath c.CveDBPath then errs
      else errs ++ [VErr.cveDBPath c.CveDBPath]
    else errs
  let errs :=
    match validateConfigStruct v c with
    | some e => errs ++ [e]
    | none => errs
  let mailerrs := smtpConf.Validate v c.Mail
  let errs := if 0 < mailerrs.length then errs ++ mailerrs else errs
  let slackerrs := SlackConf.Validate v c.Slack
  let errs := if 0 < slackerrs.length then errs ++ slackerrs else errs
  errs

/-- Method `Config.Validate` of config.go: the returned boolean,
`len(errs) == 0`. -/
def Config.Validate (v : GoValidator) (c : Config) : Bool :=
  (Config.ValidateErrs v c).length = 0

/-- State-passing form of `Config.Validate`: the boolean result, the
collected error list, and the receiver value after the call.  The Go method
takes its receiver by value and contains no assignment to it or to any of
its fields, so the final receiver state is the input. -/
def Config.ValidateRun (v : GoValidator) (c : Config) :
    Bool × List VErr × Config :=
  (Config.Validate v c, Config.ValidateErrs v c, c)

/-- Method `ServerInfo.IsContainer` of config.go. -/
def ServerInfo.IsContainer (s : ServerInfo) : Bool :=
  0 < s.Container.ContainerID.length

/-- Method `ServerInfo.IsLocal` of config.go. -/
def ServerInfo.IsLocal (s : ServerInfo) : Bool :=
  s.Host == "localhost" || s.Host == "127.0.0.1"

/-- Method `ServerInfo.SetContainer` of config.go: assigns the `Container` field
of the (pointer) receiver; rendered as returning the updated struct. -/
def ServerInfo.SetContainer (s : ServerInfo) (d : Vuls.Container) : ServerInfo :=
  { s with Container := d }

/-! Concrete sample values, used to witness the theorems below on explicit
inputs. -/

/-- A concrete instantiation of the abstract govalidator predicates, used
only by witnesses. -/
def sampleValidator : GoValidator where
  isFilePath := fun s => s.data.head? == some '/'
  isEmail := fun s => s.data.contains '@'
  isURL := fun s => 0 < s.length
  isPort := fun s => 0 < s.length

/-- The Go zero value of `Container`. -/
def zeroContainer : Container := ⟨"", "", ""⟩

/-- The Go zero value of `ServerInfo`. -/
def zeroServerInfo : ServerInfo :=
  ⟨"", "", "", "", "", "", [], [], [], "", zeroContainer, ""⟩

/-- The Go zero value of `smtpConf`. -/
def zeroSmtpConf : smtpConf := ⟨"", "", "", "", "", [], [], "", false⟩

/-- The Go zero value of `SlackConf`. -/
def zeroSlackConf : SlackConf := ⟨"", "", "", "", [], "", false⟩

/-- The Go zero value of `Config`. -/
def zeroConfig : Config :=
  ⟨false, false, "", zeroSmtpConf, zeroSlackConf, zeroServerInfo, [], "",
    0.0, false, false, "", "", "", "", "", "", "", "", ""⟩

/-- Whether a violation is the channel-must-start-with-`#` error. -/
def VErr.isChannelNoHash : VErr → Bool
  | .channelNoHash _ => true
  | _ => false

/-- A `Config` whose only defect is a relative `JSONBaseDir`. -/
def badDirConfig : Config := { zeroConfig with JSONBaseDir := "relative/path" }

/-- A `Config` whose only defect is a relative `CveDBPath`. -/
def badDBConfig : Config := { zeroConfig with CveDBPath := "relative/db" }

/-- An enabled mail block whose combined address list holds one malformed
address before an empty slot and one malformed address after it. -/
def sampleMail : smtpConf :=
  { zeroSmtpConf with
      UseThisTime := true
      From := "a@b.com"
      To := ["bad", "", "alsobad"]
      SMTPAddr := "smtp.example.com"
      SMTPPort := "25" }

/-- An enabled mail block with every required field left empty. -/
def emptyMail : smtpConf := { zeroSmtpConf with UseThisTime := true }

/-- A disabled mail block full of garbage values. -/
def garbageMail : smtpConf :=
  ⟨"not an addr", "-5", "u", "p", "not-an-email", ["x", ""], ["y"], "[pre]", false⟩

/-- A disabled chat block full of garbage values. -/
def garbageSlack : SlackConf :=
  ⟨"nonsense", "general", "smile", "", ["a"], "txt", false⟩

/-- An enabled chat block whose channel lacks the `#` mark. -/
def slackNoHash : SlackConf :=
  { zeroSlackConf with
      UseThisTime := true
      Channel := "general"
      HookURL := "http://x"
      AuthUser := "u" }

/-- An enabled chat block with a `#`-marked channel. -/
def slackHash : SlackConf := { slackNoHash with Channel := "#general" }

/-- An enabled chat block using the server-name placeholder channel. -/
def slackPlaceholder : SlackConf :=
  { slackNoHash with Channel := "${servername}" }

/-- A server profile for the local host with an attached container. -/
def localServer : ServerInfo :=
  { zeroServerInfo with
      Host := "localhost"
      Container := ⟨"c0ffee", "web", "docker"⟩ }

/-! Helper lemmas. -/

/-- A string has length zero iff it is the empty string. -/
theorem string_length_eq_zero (s : String) : s.length = 0 ↔ s = "" := by
  constructor
  · intro h
    cases s with
    | mk data =>
      simp [String.length] at h
      simp [h]
  · intro h
    simp [h]

/-- The guarded appends of config.go (`if 0 < len(xs) then append(errs, xs...)`)
are plain appends. -/
theorem append_if_nonempty (e l : List VErr) :
    (if 0 < l.length then e ++ l else e) = e ++ l := by
  cases l <;> simp

/-- A list guarded by its own non-emptiness is itself. -/
theorem if_pos_len (l : List VErr) : (if 0 < l.length then l else []) = l := by
  cases l <;> simp

/-- Appending the optional error of a `ValidateStruct` pass, rewritten via
`Option.toList`. -/
theorem append_opt (e : List VErr) (o : Option VErr) :
    (match o with | some x => e ++ [x] | none => e) = e ++ o.toList := by
  cases o <;> simp

/-- Function `checkEmails` computes exactly: take the addresses up to the first
empty one, keep those failing the email predicate, and report each. -/
theorem checkEmails_eq (f : String → Bool) (l : List String) :
    checkEmails f l =
      ((l.takeWhile fun a => a.length != 0).filter fun a => !f a).map
        VErr.invalidEmail := by
  induction l with
  | nil => rfl
  | cons a rest ih =>
      by_cases ha : a.length = 0
      · simp [checkEmails, ha, List.takeWhile_cons]
      · by_cases hf : f a <;>
          simp [checkEmails, ha, hf, List.takeWhile_cons, ih]

/-- Decomposition of the enabled-mail validator into its passes, in
source order. -/
theorem smtpValidate_enabled (v : GoValidator) (c : smtpConf)
    (h : c.UseThisTime = true) :
    smtpConf.Validate v c =
      checkEmails v.isEmail ([c.From] ++ c.To ++ c.Cc)
      ++ ((if c.SMTPAddr.length = 0 then [VErr.smtpAddrEmpty] else [])
      ++ ((if c.SMTPPort.length = 0 then [VErr.smtpPortEmpty] else [])
      ++ ((if c.To.length = 0 then [VErr.toRequired] else [])
      ++ ((if c.From.length = 0 then [VErr.fromRequired] else [])
      ++ (validateSmtpStruct v c).toList)))) := by
  cases hso : validateSmtpStruct v c <;>
    by_cases h1 : c.SMTPAddr.length = 0 <;>
    by_cases h2 : c.SMTPPort.length = 0 <;>
    by_cases h3 : c.To.length = 0 <;>
    by_cases h4 : c.From.length = 0 <;>
    simp [smtpConf.Validate, h, h1, h2, h3, h4, hso, if_pos_len]

/-- Decomposition of the enabled-chat validator into its passes, in
source order. -/
theorem slackValidate_enabled (v : GoValidator) (c : SlackConf)
    (h : c.UseThisTime = true) :
    SlackConf.Validate v c =
      (if c.HookURL.length = 0 then [VErr.hookURLEmpty] else [])
      ++ ((if c.Channel.length = 0 then [VErr.channelEmpty]
          else if !(stringHasPrefix c.Channel "#" || c.Channel == "${servername}")
          then [VErr.channelNoHash c.Channel] else [])
      ++ ((if c.AuthUser.length = 0 then [VErr.authUserEmpty] else [])
      ++ (validateSlackStruct v c).toList)) := by
  cases hso : validateSlackStruct v c <;>
    by_cases h0 : c.HookURL.length = 0 <;>
    by_cases h1 : c.Channel.length = 0 <;>
    by_cases h2 :
      (stringHasPrefix c.Channel "#" || c.Channel == "${servername}") = true <;>
    by_cases h3 : c.AuthUser.length = 0 <;>
    simp [SlackConf.Validate, h, h0, h1, h2, h3, hso]

/-- The enabled-chat decomposition with the channel test stated
propositionally. -/
theorem slackValidate_enabled_prop (v : GoValidator) (c : SlackConf)
    (h : c.UseThisTime = true) :
    SlackConf.Validate v c =
      (if c.HookURL.length = 0 then [VErr.hookURLEmpty] else [])
      ++ ((if c.Channel.length = 0 then [VErr.channelEmpty]
          else if stringHasPrefix c.Channel "#" = true ∨ c.Channel = "${servername}"
          then [] else [VErr.channelNoHash c.Channel])
      ++ ((if c.AuthUser.length = 0 then [VErr.authUserEmpty] else [])
      ++ (validateSlackStruct v c).toList)) := by
  rw [slackValidate_enabled v c h]
  by_cases hb : stringHasPrefix c.Channel "#" = true ∨ c.Channel = "${servername}"
  · have hbb : (stringHasPrefix c.Channel "#" || c.Channel == "${servername}") = true := by
      rcases hb with hb | hb <;> simp [hb]
    simp [hbb, hb]
  · push_neg at hb
    have hbb : (stringHasPrefix c.Channel "#" || c.Channel == "${servername}") = false := by
      simp [Bool.not_eq_true] at hb
      simp [hb.1, hb.2]
    simp only [hbb]
    have hb2 : ¬(stringHasPrefix c.Channel "#" = true ∨ c.Channel = "${servername}") := by
      simp [Bool.not_eq_true] at hb ⊢
      exact hb
    simp [hb2]

/-- Decomposition of the top-level validator into its five checks, in
source order. -/
theorem configValidateErrs_eq (v : GoValidator) (c : Config) :
    Config.ValidateErrs v c =
      (if c.JSONBaseDir.length ≠ 0 ∧ v.isFilePath c.JSONBaseDir = false
        then [VErr.jsonBaseDir c.JSONBaseDir] else [])
      ++ ((if c.CveDBPath.length ≠ 0 ∧ v.isFilePath c.CveDBPath = false
        then [VErr.cveDBPath c.CveDBPath] else [])
      ++ ((validateConfigStruct v c).toList
      ++ (smtpConf.Validate v c.Mail
      ++ SlackConf.Validate v c.Slack))) := by
  cases hso : validateConfigStruct v c <;>
    by_cases h0 : c.JSONBaseDir.length = 0 <;>
    by_cases h0' : v.isFilePath c.JSONBaseDir = true <;>
    by_cases h1 : c.CveDBPath.length = 0 <;>
    by_cases h1' : v.isFilePath c.CveDBPath = true <;>
    cases hm : smtpConf.Validate v c.Mail <;>
    cases hs : SlackConf.Validate v c.Slack <;>
    simp [Config.ValidateErrs, h0, h0', h1, h1', hso, hm, hs]

/-! The claims. -/

/-- C1: for every Settings value, `Config.Validate` returns true iff the
collected violation sequence is empty, and that sequence is exactly the
concatenation of the five checks (JSONBaseDir path, CveDBPath path,
general structural check, mail block, chat block) in source order, so
every check runs and every violation found is appended — validation never
stops at the first error. -/
theorem validate_true_iff_no_violations (v : GoValidator) (c : Config) :
    (Config.Validate v c = true ↔ Config.ValidateErrs v c = []) ∧
    Config.ValidateErrs v c =
      (if c.JSONBaseDir.length ≠ 0 ∧ v.isFilePath c.JSONBaseDir = false
        then [VErr.jsonBaseDir c.JSONBaseDir] else [])
      ++ ((if c.CveDBPath.length ≠ 0 ∧ v.isFilePath c.CveDBPath = false
        then [VErr.cveDBPath c.CveDBPath] else [])
      ++ ((validateConfigStruct v c).toList
      ++ (smtpConf.Validate v c.Mail
      ++ SlackConf.Validate v c.Slack))) := by
  refine ⟨?_, configValidateErrs_eq v c⟩
  simp [Config.Validate, List.length_eq_zero]

/-- C2: for every enabled mail block, the email-format pass walks the
combined list `[From] ++ To ++ Cc` in that order, reports one error naming
each malformed non-empty address strictly before the first empty entry,
and stops at the first empty entry — while the missing-field checks and
the structural pass still run and their findings follow. -/
theorem email_pass_stops_at_empty (v : GoValidator) (c : smtpConf)
    (h : c.UseThisTime = true) :
    smtpConf.Validate v c =
      ((([c.From] ++ c.To ++ c.Cc).takeWhile fun a => a.length != 0).filter
          fun a => !v.isEmail a).map VErr.invalidEmail
      ++ ((if c.SMTPAddr.length = 0 then [VErr.smtpAddrEmpty] else [])
      ++ ((if c.SMTPPort.length = 0 then [VErr.smtpPortEmpty] else [])
      ++ ((if c.To.length = 0 then [VErr.toRequired] else [])
      ++ ((if c.From.length = 0 then [VErr.fromRequired] else [])
      ++ (validateSmtpStruct v c).toList)))) := by
  rw [smtpValidate_enabled v c h, checkEmails_eq]

/-- Witness for C2: a concrete enabled mail block whose To list holds a
malformed address, then an empty slot, then another malformed address;
only the first malformed address is reported. -/
theorem email_pass_stops_at_empty_witness :
    sampleMail.UseThisTime = true ∧
    smtpConf.Validate sampleValidator sampleMail = [VErr.invalidEmail "bad"] := by
  constructor
  · rfl
  · rw [email_pass_stops_at_empty sampleValidator sampleMail rfl]
    decide

/-- C3: a mail block and a chat block whose enabled flag is false produce
zero errors, whatever the other fields hold. -/
theorem disabled_blocks_yield_no_errors (v : GoValidator) (m : smtpConf)
    (s : SlackConf) (hm : m.UseThisTime = false) (hs : s.UseThisTime = false) :
    smtpConf.Validate v m = [] ∧ SlackConf.Validate v s = [] := by
  constructor <;> simp [smtpConf.Validate, SlackConf.Validate, hm, hs]

/-- Witness for C3: concrete disabled blocks full of garbage values yield
zero errors. -/
theorem disabled_blocks_yield_no_errors_witness :
    garbageMail.UseThisTime = false ∧ garbageSlack.UseThisTime = false ∧
    smtpConf.Validate sampleValidator garbageMail = [] ∧
    SlackConf.Validate sampleValidator garbageSlack = [] := by
  have h := disabled_blocks_yield_no_errors sampleValidator garbageMail
    garbageSlack rfl rfl
  exact ⟨rfl, rfl, h.1, h.2⟩

/-- C4: for every enabled chat block, an empty channel is reported as
such; a non-empty channel draws the channel-mark error exactly when it
neither starts with `#` nor equals the literal `${servername}`; such a
channel draws exactly one channel-mark error, and a conforming channel
draws none. -/
theorem channel_mark_check (v : GoValidator) (c : SlackConf)
    (h : c.UseThisTime = true) :
    (c.Channel.length = 0 → VErr.channelEmpty ∈ SlackConf.Validate v c) ∧
    (c.Channel.length ≠ 0 →
      ((VErr.channelNoHash c.Channel ∈ SlackConf.Validate v c) ↔
        ¬(stringHasPrefix c.Channel "#" = true ∨ c.Channel = "${servername}"))) ∧
    (c.Channel.length ≠ 0 →
      ¬(stringHasPrefix c.Channel "#" = true ∨ c.Channel = "${servername}") →
      (SlackConf.Validate v c).countP VErr.isChannelNoHash = 1) ∧
    ((stringHasPrefix c.Channel "#" = true ∨ c.Channel = "${servername}") →
      (SlackConf.Validate v c).countP VErr.isChannelNoHash = 0) := by
  have hd := slackValidate_enabled_prop v c h
  refine ⟨fun h1 => ?_, fun h1 => ?_, fun h1 h2 => ?_, fun h2 => ?_⟩ <;>
    rw [hd] <;>
    by_cases h0 : c.HookURL.length = 0 <;>
    by_cases h3 : c.AuthUser.length = 0 <;>
    by_cases hs0 : c.HookURL.length ≠ 0 ∧ v.isURL c.HookURL = false <;>
    by_cases hb :
      stringHasPrefix c.Channel "#" = true ∨ c.Channel = "${servername}" <;>
    by_cases hch : c.Channel.length = 0 <;>
    simp_all [validateSlackStruct, VErr.isChannelNoHash, List.countP_append,
      List.countP_cons]

/-- Witness for C4: channel "general" yields exactly one channel-mark
error, channels "#general" and "${servername}" yield none. -/
theorem channel_mark_check_witness :
    slackNoHash.UseThisTime = true ∧ slackNoHash.Channel = "general" ∧
    (SlackConf.Validate sampleValidator slackNoHash).countP
      VErr.isChannelNoHash = 1 ∧
    (SlackConf.Validate sampleValidator slackHash).countP
      VErr.isChannelNoHash = 0 ∧
    (SlackConf.Validate sampleValidator slackPlaceholder).countP
      VErr.isChannelNoHash = 0 := by
  refine ⟨rfl, rfl, ?_, ?_, ?_⟩
  · exact (channel_mark_check sampleValidator slackNoHash rfl).2.2.1
      (by decide) (by decide)
  · exact (channel_mark_check sampleValidator slackHash rfl).2.2.2
      (by decide)
  · exact (channel_mark_check sampleValidator slackPlaceholder rfl).2.2.2
      (by decide)

/-- C5: a non-empty `JSONBaseDir` (resp. `CveDBPath`) failing the
absolute-path predicate puts an error naming it into the collected
sequence and makes `Validate` return false; when every other check is
clean, that error is the only one. -/
theorem path_checks_report (v : GoValidator) (c : Config) :
    (c.JSONBaseDir.length ≠ 0 → v.isFilePath c.JSONBaseDir = false →
      VErr.jsonBaseDir c.JSONBaseDir ∈ Config.ValidateErrs v c ∧
      Config.Validate v c = false ∧
      ((c.CveDBPath.length = 0 ∨ v.isFilePath c.CveDBPath = true) →
        validateConfigStruct v c = none →
        smtpConf.Validate v c.Mail = [] →
        SlackConf.Validate v c.Slack = [] →
        Config.ValidateErrs v c = [VErr.jsonBaseDir c.JSONBaseDir])) ∧
    (c.CveDBPath.length ≠ 0 → v.isFilePath c.CveDBPath = false →
      VErr.cveDBPath c.CveDBPath ∈ Config.ValidateErrs v c ∧
      Config.Validate v c = false ∧
      ((c.JSONBaseDir.length = 0 ∨ v.isFilePath c.JSONBaseDir = true) →
        validateConfigStruct v c = none →
        smtpConf.Validate v c.Mail = [] →
        SlackConf.Validate v c.Slack = [] →
        Config.ValidateErrs v c = [VErr.cveDBPath c.CveDBPath])) := by
  have hd := configValidateErrs_eq v c
  constructor
  · intro hne hbad
    have hmem : VErr.jsonBaseDir c.JSONBaseDir ∈ Config.ValidateErrs v c := by
      rw [hd]; simp [hne, hbad]
    refine ⟨hmem, ?_, ?_⟩
    · have hnil := List.ne_nil_of_mem hmem
      simp [Config.Validate, List.length_eq_zero]
      exact hnil
    · intro hdb hstruct hmail hslack
      have hdb' : ¬(c.CveDBPath.length ≠ 0 ∧ v.isFilePath c.CveDBPath = false) := by
        rcases hdb with h' | h'
        · exact fun hc => hc.1 h'
        · intro hc; rw [h'] at hc; exact absurd hc.2 (by simp)
      rw [hd]
      simp [hne, hbad, hdb', hstruct, hmail, hslack]
  · intro hne hbad
    have hmem : VErr.cveDBPath c.CveDBPath ∈ Config.ValidateErrs v c := by
      rw [hd]; simp [hne, hbad]
    refine ⟨hmem, ?_, ?_⟩
    · have hnil := List.ne_nil_of_mem hmem
      simp [Config.Validate, List.length_eq_zero]
      exact hnil
    · intro hjd hstruct hmail hslack
      have hjd' : ¬(c.JSONBaseDir.length ≠ 0 ∧ v.isFilePath c.JSONBaseDir = false) := by
        rcases hjd with h' | h'
        · exact fun hc => hc.1 h'
        · intro hc; rw [h'] at hc; exact absurd hc.2 (by simp)
      rw [hd]
      simp [hne, hbad, hjd', hstruct, hmail, hslack]

/-- Witness for C5: the config whose only defect is the relative path
"relative/path" in JSONBaseDir yields exactly that one error and a false
verdict, and the config whose only defect is a relative CveDBPath behaves
symmetrically. -/
theorem path_checks_report_witness :
    (Config.ValidateErrs sampleValidator badDirConfig
      = [VErr.jsonBaseDir "relative/path"] ∧
     Config.Validate sampleValidator badDirConfig = false) ∧
    (Config.ValidateErrs sampleValidator badDBConfig
      = [VErr.cveDBPath "relative/db"] ∧
     Config.Validate sampleValidator badDBConfig = false) := by
  constructor
  · have h := (path_checks_report sampleValidator badDirConfig).1
      (by decide) (by decide)
    exact ⟨h.2.2 (Or.inl rfl) rfl rfl rfl, h.2.1⟩
  · have h := (path_checks_report sampleValidator badDBConfig).2
      (by decide) (by decide)
    exact ⟨h.2.2 (Or.inl rfl) rfl rfl rfl, h.2.1⟩

/-- C6: for every enabled mail block, each of the four missing-field
errors is present exactly when its field is empty, independently of the
other fields. -/
theorem required_field_errors (v : GoValidator) (c : smtpConf)
    (h : c.UseThisTime = true) :
    (VErr.smtpAddrEmpty ∈ smtpConf.Validate v c ↔ c.SMTPAddr = "") ∧
    (VErr.smtpPortEmpty ∈ smtpConf.Validate v c ↔ c.SMTPPort = "") ∧
    (VErr.toRequired ∈ smtpConf.Validate v c ↔ c.To = []) ∧
    (VErr.fromRequired ∈ smtpConf.Validate v c ↔ c.From = "") := by
  rw [smtpValidate_enabled v c h, checkEmails_eq]
  by_cases hp : c.SMTPPort.length ≠ 0 ∧ v.isPort c.SMTPPort = false <;>
    by_cases h1 : c.SMTPAddr.length = 0 <;>
    by_cases h2 : c.SMTPPort.length = 0 <;>
    by_cases h3 : c.To.length = 0 <;>
    by_cases h4 : c.From.length = 0 <;>
    simp_all [validateSmtpStruct, string_length_eq_zero, List.length_eq_zero]

/-- Witness for C6: the enabled mail block with all fields empty reports
all four missing-field errors and nothing else. -/
theorem required_field_errors_witness :
    emptyMail.UseThisTime = true ∧
    smtpConf.Validate sampleValidator emptyMail =
      [VErr.smtpAddrEmpty, VErr.smtpPortEmpty, VErr.toRequired,
        VErr.fromRequired] ∧
    VErr.toRequired ∈ smtpConf.Validate sampleValidator emptyMail := by
  refine ⟨rfl, by decide, ?_⟩
  exact ((required_field_errors sampleValidator emptyMail rfl).2.2.1).2 rfl

/-- C7: `IsContainer` holds iff the attached container id is non-empty,
and `IsLocal` holds iff the host is localhost or the loopback address —
false for any other host, the empty one included. -/
theorem container_and_local_predicates (s : ServerInfo) :
    (s.IsContainer = true ↔ s.Container.ContainerID ≠ "") ∧
    (s.IsLocal = true ↔ (s.Host = "localhost" ∨ s.Host = "127.0.0.1")) ∧
    (s.Host = "" → s.IsLocal = false) := by
  refine ⟨?_, ?_, fun h => ?_⟩
  · simp [ServerInfo.IsContainer, Nat.pos_iff_ne_zero]
    exact not_congr (string_length_eq_zero _)
  · simp [ServerInfo.IsLocal]
  · simp [ServerInfo.IsLocal, h]

/-- Witness for C7: the zero-value profile has empty host and is not
local; a profile with host "localhost" and a container id is both local
and a container target. -/
theorem container_and_local_predicates_witness :
    zeroServerInfo.Host = "" ∧ zeroServerInfo.IsLocal = false ∧
    localServer.IsContainer = true ∧ localServer.IsLocal = true := by
  refine ⟨rfl, ?_, ?_, ?_⟩
  · exact (container_and_local_predicates zeroServerInfo).2.2 rfl
  · exact (container_and_local_predicates localServer).1.2 (by decide)
  · exact (container_and_local_predicates localServer).2.1.2 (Or.inl rfl)

/-- C8: validation is a pure function of the settings value: the receiver
is returned unchanged, and re-running validation on it reproduces the same
boolean and the same ordered error sequence. -/
theorem validate_pure_and_idempotent (v : GoValidator) (c : Config) :
    (Config.ValidateRun v c).2.2 = c ∧
    Config.ValidateRun v ((Config.ValidateRun v c).2.2) = Config.ValidateRun v c ∧
    (Config.ValidateRun v c).1 = Config.Validate v c ∧
    (Config.ValidateRun v c).2.1 = Config.ValidateErrs v c :=
  ⟨rfl, rfl, rfl, rfl⟩

/-- C9: `SetContainer` overwrites the `Container` field with the given
descriptor and leaves every other field of the profile unchanged. -/
theorem set_container_frame (s : ServerInfo) (d : Vuls.Container) :
    (s.SetContainer d).Container = d ∧
    (s.SetContainer d).ServerName = s.ServerName ∧
    (s.SetContainer d).User = s.User ∧
    (s.SetContainer d).Host = s.Host ∧
    (s.SetContainer d).Port = s.Port ∧
    (s.SetContainer d).KeyPath = s.KeyPath ∧
    (s.SetContainer d).KeyPassword = s.KeyPassword ∧
    (s.SetContainer d).CpeNames = s.CpeNames ∧
    (s.SetContainer d).Containers = s.Containers ∧
    (s.SetContainer d).Optional = s.Optional ∧
    (s.SetContainer d).LogMsgAnsiColor = s.LogMsgAnsiColor ∧
    (s.SetContainer d).Family = s.Family :=
  ⟨rfl, rfl, rfl, rfl, rfl, rfl, rfl, rfl, rfl, rfl, rfl, rfl⟩

/-- C10: the zero-value Settings validates cleanly: every top-level check
skips its empty field and both nested blocks short-circuit on their
disabled flag, whatever the format predicates are. -/
theorem zero_value_config_valid (v : GoValidator) :
    Config.Validate v zeroConfig = true ∧
    Config.ValidateErrs v zeroConfig = [] :=
  ⟨rfl, rfl⟩

end Vuls
